import Mathlib

/-!
Verification development for the trait change notification engine of the
`traits` repository, together with its `_py2to3` compatibility module.

The repository sources available here are `traits/_py2to3.py` (embedded
directly below) and `traits/tests/test_listeners.py` (the behavioural tests
that exercise the notification engine).  The engine itself
(`HasTraits.on_trait_change`, the listener registry, the notification
dispatcher and the exception handler chain) is not among the sources, so the
engine is modelled from the specification, as marked on each definition.
-/

namespace TraitsSpec

/-- Modelled from the spec: the Listener Binding of section 3 ("the unit of
subscription").  The engine keys observables and listener targets by
identity, so both are represented by identity tokens (`Nat`); `attr` is the
watched attribute name and `group` the listener-group label, where `""` is
the default (unlabeled) group.  The missing source is the binding object of
the listener registry (`TraitsListener` machinery, absent from src). -/
structure Binding where
  obs : Nat
  attr : String
  target : Nat
  group : String
deriving DecidableEq, Repr

/-- Modelled from the spec: the Listener Registry of section 4.2, an
insertion-ordered collection of bindings (section 3: "ordered set of
Listener Bindings (insertion order preserved)").  The missing source is the
per-object notifier list of `HasTraits`. -/
abbrev Registry : Type := List Binding

/-- Modelled from the spec: `subscribe` of section 4.2 — idempotent add
(invariant I2: "adding the same (target, attribute, group) twice yields
exactly one effective subscription"); a fresh binding is appended, keeping
registration order.  The missing source is `HasTraits.on_trait_change` /
`add_trait_listener`. -/
def subscribe (r : Registry) (b : Binding) : Registry :=
  if b ∈ r then r else r ++ [b]

/-- Modelled from the spec: `unsubscribe` of section 4.2 — removes the
binding, a silent no-op when it is not present ("never raises for not
found").  The missing source is `on_trait_change(..., remove=True)` /
`remove_trait_listener`. -/
def unsubscribe (r : Registry) (b : Binding) : Registry :=
  r.filter (fun x => x ≠ b)

/-- Modelled from the spec: the registry lookup done by the Notification
Dispatcher of section 4.3 — all bindings registered for this attribute on
this observable, across every group, in registration order.  The missing
source is the notifier lookup in the dispatch path of `HasTraits`. -/
def lookup (r : Registry) (obs : Nat) (attr : String) : List Binding :=
  r.filter (fun b => b.obs = obs ∧ b.attr = attr)

/-- Modelled from the spec: one dispatch round of section 4.3 — each live
binding for the attribute is invoked in registration order with the new
value; the deliveries are recorded as (target, new value) pairs.  The
missing source is the dispatch loop of the notification machinery. -/
def dispatch (r : Registry) (obs : Nat) (attr : String) (new : Int) :
    List (Nat × Int) :=
  (lookup r obs attr).map (fun b => (b.target, new))

/-- Modelled from the spec: registry teardown — the removal of every
binding, as in the final stage of the grouped-listener test where both the
default and the "alt" listener are removed. -/
def removeAllListeners (r : Registry) : Registry :=
  r.foldl unsubscribe r

/-- A subscribe/unsubscribe call, for the algebraic claim about call
sequences (spec section 8, first property). -/
inductive RegOp where
  | sub (b : Binding)
  | unsub (b : Binding)
deriving DecidableEq, Repr

/-- The binding (the de-duplication key (observable, attribute, target,
group)) an operation acts on. -/
def RegOp.key : RegOp → Binding
  | .sub b => b
  | .unsub b => b

/-- Whether the operation activates its key. -/
def RegOp.isSub : RegOp → Bool
  | .sub _ => true
  | .unsub _ => false

/-- Modelled from the spec: applying one subscribe/unsubscribe call to the
registry. -/
def applyOp (r : Registry) (op : RegOp) : Registry :=
  match op with
  | .sub b => subscribe r b
  | .unsub b => unsubscribe r b

/-- Modelled from the spec: the net registry after a sequence of
subscribe/unsubscribe calls starting from the empty registry. -/
def runOps (ops : List RegOp) : Registry :=
  ops.foldl applyOp []

/-- Last-write-wins status of a key over a call sequence, starting from a
given initial activity: the final verdict is that of the last call on the
key, if any. -/
def lwwFrom (init : Bool) (ops : List RegOp) (b : Binding) : Bool :=
  ops.foldl (fun acc op => if op.key = b then op.isSub else acc) init

/-- Last-write-wins de-duplication on (observable, attribute, target,
group): a key is active exactly when the last call on it was a subscribe. -/
def lastWriteWins (ops : List RegOp) (b : Binding) : Bool :=
  lwwFrom false ops b

/-- Modelled from the spec: an Observable of section 3 — identity-owned
("identity-owned; may or may not support hashing/equality").  `id` is the
object identity; `hashVal` is the hash the object offers, `none` for an
unhashable object (one on which taking the hash raises `TypeError`, as the
`UnhashableHasTraits` class of the tests does).  The missing source is the
`HasTraits` base class. -/
structure Observable where
  id : Nat
  hashVal : Option Nat
deriving DecidableEq, Repr

/-- Modelled from the spec: `subscribe` taken at an observable object
(section 4.2): "the registry keys by identity of `observable`, never by
hash/equality of its value" — only `o.id` reaches the registry. -/
def subscribeObs (r : Registry) (o : Observable) (attr : String)
    (target : Nat) (group : String) : Registry :=
  subscribe r ⟨o.id, attr, target, group⟩

/-- Modelled from the spec: an attribute write on an observable triggering
one dispatch round (section 6: "attribute write triggers an implicit
`notify(...)` call"); deliveries are the (target, new value) pairs. -/
def setAttr (r : Registry) (o : Observable) (attr : String) (new : Int) :
    List (Nat × Int) :=
  dispatch r o.id attr new

/-!
## Extended-path machine

Model of the Extended Name Resolver (spec section 4.1) for the two-hop path
`"sub.a"` watched on a container, as exercised by
`TestUnhashableHasTraits.test_unshashable_intermediate`.
-/

/-- Modelled from the spec: an intermediate object of an extended path,
holding a leaf attribute `a`; `hashVal = none` makes it unhashable (the
engine may not rely on hashing intermediates). -/
structure SubObj where
  id : Nat
  a : Int
  hashVal : Option Nat
deriving DecidableEq, Repr

/-- Modelled from the spec: the state of a root observable being watched on
the extended path `"sub.a"` (section 4.1).  `heap` maps object identities to
their current `a` value, `subId` is the identity of the object currently
occupying the `sub` hop, `watchedLeaf` is the identity of the object whose
`a` attribute the resolver currently instruments, and `events` records the
new values delivered for the full path, in delivery order.  The missing
source is the `ListenerItem`/extended-name machinery of the engine. -/
structure PathState where
  heap : List SubObj
  subId : Nat
  watchedLeaf : Nat
  events : List Int
deriving DecidableEq, Repr

/-- Modelled from the spec: subscribing to the path `"sub.a"` instruments
the chain of hops — the resolver attaches its leaf listener to whatever
object currently occupies `sub` (section 4.1). -/
def watchSubA (heap : List SubObj) (subId : Nat) : PathState :=
  ⟨heap, subId, subId, []⟩

/-- Modelled from the spec: writing the leaf attribute `a` of the object
with identity `objId`.  A terminal notification for the path is delivered
exactly when the written object is the one the resolver currently
instruments; a write to any other object (such as a stale former
intermediate, invariant I4) delivers nothing.  Objects are identified by
identity alone; their `hashVal` plays no role. -/
def setLeafA (s : PathState) (objId : Nat) (v : Int) : PathState :=
  { s with
    heap := s.heap.map (fun o => if o.id = objId then { o with a := v } else o)
    events := if objId = s.watchedLeaf then s.events ++ [v] else s.events }

/-- Modelled from the spec: replacing the intermediate hop `sub` wholesale
with a fresh object (section 4.1): the resolver detaches the leaf listener
from the old downstream object, attaches it to the new one, and delivers a
terminal notification using the new leaf value — with no further action by
the subscriber. -/
def replaceSub (s : PathState) (newSub : SubObj) : PathState :=
  { heap := newSub :: s.heap.filter (fun o => o.id ≠ s.subId)
    subId := newSub.id
    watchedLeaf := newSub.id
    events := s.events ++ [newSub.a] }

/-!
## Exception handler chain and guarded dispatch

Model of sections 4.4 and 7 for the dispatch path: each listener invocation
is independently guarded; failures flow to the handler chain; with no
handler installed a diagnostic is emitted and dispatch continues.
-/

/-- Modelled from the spec: an installed exception handler of section 4.4,
with its policy flags. -/
structure Handler where
  reraise : Bool
  main : Bool
deriving DecidableEq, Repr

/-- Outcome of one guarded dispatch round: how many diagnostics were emitted
to the error stream, and whether an exception was re-raised to the attribute
setter on the mutating thread. -/
structure DispatchOutcome where
  diagnostics : Nat
  raisedToSetter : Bool
deriving DecidableEq, Repr

/-- Modelled from the spec: one guarded dispatch round (sections 4.3/4.4/7).
`fails b.target` says whether that listener raises when invoked.  Every
binding for the attribute is invoked in registration order; an exception
from one listener does not prevent subsequent listeners from running.  A
failure is routed to the top handler when one is installed (re-raised to the
setter only if that handler requests it); with no handler installed a
diagnostic is emitted and dispatch continues. -/
def guardedDispatch (r : Registry) (fails : Nat → Bool)
    (handlers : List Handler) (obs : Nat) (attr : String) :
    DispatchOutcome :=
  (lookup r obs attr).foldl
    (fun out b =>
      if fails b.target then
        match handlers with
        | [] => { out with diagnostics := out.diagnostics + 1 }
        | h :: _ => if h.reraise then { out with raisedToSetter := true } else out
      else out)
    ⟨0, false⟩

/-- Modelled from the spec: an attribute write under the exception policy —
the write itself always takes effect (the stored value becomes `new`), then
the guarded dispatch round runs (section 7: "a listener exception must never
abort the attribute write that triggered it"). -/
def setAttrGuarded (r : Registry) (fails : Nat → Bool)
    (handlers : List Handler) (obs : Nat) (attr : String) (new : Int) :
    Int × DispatchOutcome :=
  (new, guardedDispatch r fails handlers obs attr)

end TraitsSpec

namespace Py2to3

/-!
## Embedding of `traits/_py2to3.py`

The module is a sequence of `if sys.version_info[0] < 3` branches; the
definitions below embed the Python-3 branches, which are the ones a
Python-3 runtime executes.
-/

/-- `is_old_style_instance` on the Python-3 branch (`_py2to3.py` lines
28-31): defined twice, both bodies `return False`. -/
def is_old_style_instance {α : Type} (obj : α) : Bool := false

/-- `is_InstanceType` on the Python-3 branch (`_py2to3.py` lines 32-33):
`return False`. -/
def is_InstanceType {α : Type} (obj : α) : Bool := false

/-- `is_ClassType` on the Python-3 branch (`_py2to3.py` lines 34-35):
`return False`. -/
def is_ClassType {α : Type} (obj : α) : Bool := false

/-- The module-level names bound when `_py2to3.py` runs on Python 3, in
execution order: each `def`/assignment in an executed branch binds its name
in the module namespace.  The `else` branch of lines 27-35 defines
`is_old_style_instance` twice (lines 28-31) and never binds
`is_old_style_class`. -/
def py3BoundNames : List String :=
  ["sys", "str_find", "str_rfind",
   "is_old_style_instance", "is_old_style_instance",
   "is_InstanceType", "is_ClassType",
   "type_w_old_style", "ClassTypes", "contextlib",
   "nested_context_mgrs", "assertCountEqual"]

/-- Looking a name up in the module namespace after import on Python 3: the
name resolves exactly when some executed binding bound it; otherwise the
reference fails (`NameError`/`AttributeError`), modelled as `none`. -/
def py3Lookup (name : String) : Option Unit :=
  if name ∈ py3BoundNames then some () else none

/-!
## Embedding of `nested_context_mgrs` (Python-3 branch)

`nested_context_mgrs` subclasses `contextlib.ExitStack`; its `__enter__`
(lines 76-84) enters each supplied context manager in argument order,
collecting the values; if entering one raises, `self.close()` unwinds the
exit stack — running the `__exit__` of every manager already entered, in
reverse entry order — and the exception is re-raised.
-/

/-- A context manager as `__enter__` sees it: entering either yields a value
or raises an exception, and `id` identifies the manager so that the model
can record whose exit is run during unwinding. -/
structure CtxMgr where
  id : Nat
  enterResult : Except String Int
deriving Repr

/-- The loop body of `nested_context_mgrs.__enter__` (lines 77-84): `ret`
accumulates the entered values in argument order and `stack` holds the
identities of the managers already entered, most recent first (the
`ExitStack`).  On an exception, `close()` runs the stacked exits in stack
order and the exception propagates: the error case carries the exception
and the identities of the managers closed, in the order closed. -/
def enterLoop : List CtxMgr → List Int → List Nat →
    Except (String × List Nat) (List Int)
  | [], ret, _ => .ok ret
  | mgr :: rest, ret, stack =>
    match mgr.enterResult with
    | .ok v => enterLoop rest (ret ++ [v]) (mgr.id :: stack)
    | .error e => .error (e, stack)

/-- `nested_context_mgrs(*args).__enter__()`: returns the tuple of entered
values, or propagates the first exception after closing the already-entered
managers. -/
def nested_context_mgrs_enter (args : List CtxMgr) :
    Except (String × List Nat) (List Int) :=
  enterLoop args [] []

/-- Whether entering this context manager succeeds (does not raise). -/
def CtxMgr.entersOk (m : CtxMgr) : Bool :=
  match m.enterResult with
  | .ok _ => true
  | .error _ => false

/-- The value produced by entering this context manager, when entering
succeeds (the default `0` is never reached under that hypothesis). -/
def CtxMgr.enterValue (m : CtxMgr) : Int :=
  match m.enterResult with
  | .ok v => v
  | .error _ => 0

end Py2to3

open TraitsSpec Py2to3

/-- Claim C1: for a root observable watching the extended path "sub.a" with
an (unhashable) intermediate object whose initial `a = 1`: setting
`sub.a = 2` delivers a notification with new value 2; replacing `sub`
wholesale with a new (unhashable) object whose `a = 3` delivers a
notification with new value 3 without further action by the subscriber;
setting the new `sub.a = 4` delivers a notification with new value 4 — the
recorded sequence of new values is exactly `[2, 3, 4]`. -/
theorem extended_path_records_two_three_four :
    (setLeafA (watchSubA [⟨0, 1, none⟩] 0) 0 2).events = [2] ∧
    (replaceSub (setLeafA (watchSubA [⟨0, 1, none⟩] 0) 0 2) ⟨1, 3, none⟩).events
      = [2, 3] ∧
    (setLeafA (replaceSub (setLeafA (watchSubA [⟨0, 1, none⟩] 0) 0 2)
        ⟨1, 3, none⟩) 1 4).events = [2, 3, 4] := by
  refine ⟨rfl, rfl, rfl⟩

/-- Claim C2: with the default (unlabeled) group and a second group "alt"
both subscribed for the same attribute of one observable, a single mutation
delivers the notification to both groups' bindings, each exactly once, in
registration order. -/
theorem two_groups_deliver_each_once_in_order (o t : Nat) (attr : String) :
    lookup (subscribe (subscribe [] ⟨o, attr, t, ""⟩) ⟨o, attr, t, "alt"⟩)
        o attr
      = [⟨o, attr, t, ""⟩, ⟨o, attr, t, "alt"⟩] := by
  simp [subscribe, lookup, List.filter]

/-- After removing each binding of a registry from it, nothing is left:
fold-based helper, proved by induction over the removal list. -/
theorem foldl_unsubscribe_eq_nil (l : List Binding) :
    ∀ acc : Registry, (∀ x ∈ acc, x ∈ l) → List.foldl unsubscribe acc l = [] := by
  induction l with
  | nil =>
    intro acc h
    have : acc = [] := List.eq_nil_iff_forall_not_mem.mpr
      (fun x hx => absurd (h x hx) (List.not_mem_nil x))
    simpa [this]
  | cons b l ih =>
    intro acc h
    rw [List.foldl_cons]
    apply ih
    intro x hx
    rw [unsubscribe, List.mem_filter] at hx
    obtain ⟨hmem, hne⟩ := hx
    have hne' : x ≠ b := by simpa using hne
    rcases List.mem_cons.mp (h x hmem) with heq | hmem'
    · exact absurd heq hne'
    · exact hmem'

/-- Tearing down every binding empties the registry. -/
theorem removeAllListeners_eq_nil (r : Registry) : removeAllListeners r = [] :=
  foldl_unsubscribe_eq_nil r r (fun _ hx => hx)

/-- Claim C3: after every listener binding has been removed, a subsequent
attribute mutation delivers a notification to no listener at all (the
dispatch round is empty; in the model dispatch is a total function, so
nothing can be raised). -/
theorem removed_all_then_mutation_delivers_nothing
    (r : Registry) (o : Nat) (attr : String) (new : Int) :
    dispatch (removeAllListeners r) o attr new = [] := by
  rw [removeAllListeners_eq_nil]
  rfl

/-- Claim C7: an unhashable observable (identity-only equality, no hash)
can still be subscribed to, a mutation of its watched attribute delivers
the notification, and the registry keys observables by identity alone —
two observable values with the same identity produce the same
subscription, whatever their hashes. -/
theorem unhashable_observable_subscribes_and_notifies
    (o : Observable) (t : Nat) (attr : String) (v : Int)
    (h : o.hashVal = none) :
    setAttr (subscribeObs [] o attr t "") o attr v = [(t, v)] ∧
    ∀ (o' : Observable) (r : Registry), o'.id = o.id →
      subscribeObs r o' attr t "" = subscribeObs r o attr t "" := by
  constructor
  · simp [setAttr, subscribeObs, subscribe, dispatch, lookup]
  · intro o' r h'
    simp [subscribeObs, h']

/-- Concrete witness for C7: the unhashable observable with identity 0 is
subscribed on attribute "a" and the write `a := 3` is delivered; the
binding ignores the hash — an observable value with the same identity but
hash 5 subscribes identically. -/
theorem unhashable_observable_subscribes_and_notifies_witness :
    (⟨0, none⟩ : Observable).hashVal = none ∧
    setAttr (subscribeObs [] ⟨0, none⟩ "a" 1 "") ⟨0, none⟩ "a" 3 = [(1, 3)] ∧
    subscribeObs [] ⟨0, some 5⟩ "a" 1 "" = subscribeObs [] ⟨0, none⟩ "a" 1 "" := by
  have h := unhashable_observable_subscribes_and_notifies ⟨0, none⟩ 1 "a" 3 rfl
  exact ⟨rfl, h.1, h.2 ⟨0, some 5⟩ [] rfl⟩

/-- Membership effect of one subscribe/unsubscribe call: a call on the
binding's own key decides its membership by the call's kind; a call on a
different key leaves its membership unchanged. -/
theorem mem_applyOp_iff (r : Registry) (op : RegOp) (b : Binding) :
    b ∈ applyOp r op ↔ (if op.key = b then op.isSub = true else b ∈ r) := by
  cases op with
  | sub c =>
    simp only [applyOp, RegOp.key, RegOp.isSub, subscribe]
    by_cases hkey : c = b
    · subst hkey
      by_cases hm : c ∈ r <;> simp [hm]
    · rw [if_neg hkey]
      have hne : b ≠ c := fun h => hkey h.symm
      by_cases hm : c ∈ r
      · simp [hm]
      · simp [hm, hne]
  | unsub c =>
    simp only [applyOp, RegOp.key, RegOp.isSub, unsubscribe]
    by_cases hkey : c = b
    · subst hkey
      simp [List.mem_filter]
    · have hne : b ≠ c := fun h => hkey h.symm
      simp [List.mem_filter, hkey, hne]

/-- Folding a call sequence over any starting registry realises
last-write-wins membership, relative to the starting membership. -/
theorem mem_foldl_applyOp (ops : List RegOp) :
    ∀ (r : Registry) (b : Binding),
      (b ∈ ops.foldl applyOp r) ↔ lwwFrom (decide (b ∈ r)) ops b = true := by
  induction ops with
  | nil =>
    intro r b
    simp [lwwFrom]
  | cons op ops ih =>
    intro r b
    rw [List.foldl_cons, ih]
    unfold lwwFrom
    rw [List.foldl_cons]
    have hinit : decide (b ∈ applyOp r op)
        = (if op.key = b then op.isSub else decide (b ∈ r)) := by
      by_cases hkey : op.key = b
      · rw [if_pos hkey]
        cases hs : op.isSub
        · simp [mem_applyOp_iff, hkey, hs]
        · simp [mem_applyOp_iff, hkey, hs]
      · rw [if_neg hkey]
        exact decide_eq_decide.mpr (by rw [mem_applyOp_iff, if_neg hkey])
    rw [hinit]

/-- One subscribe/unsubscribe call keeps the registry duplicate-free. -/
theorem applyOp_nodup {r : Registry} (h : r.Nodup) (op : RegOp) :
    (applyOp r op).Nodup := by
  cases op with
  | sub c =>
    simp only [applyOp, subscribe]
    by_cases hm : c ∈ r
    · simpa [hm]
    · rw [if_neg hm]
      simpa [List.nodup_append, hm] using h
  | unsub c =>
    exact h.filter _

/-- The net registry of any call sequence is duplicate-free. -/
theorem runOps_nodup (ops : List RegOp) : (runOps ops).Nodup := by
  unfold runOps
  have H : ∀ (r : Registry), r.Nodup → (ops.foldl applyOp r).Nodup := by
    induction ops with
    | nil => intro r h; simpa
    | cons op ops ih =>
      intro r h
      rw [List.foldl_cons]
      exact ih _ (applyOp_nodup h op)
  exact H [] (by simp)

/-- Claim C4: for every sequence of subscribe/unsubscribe calls, a binding
is active afterwards exactly when last-write-wins de-duplication on the
key (observable, attribute, target, group) says so, and it is never held
more than once — so subscribing an identical triple twice yields one
effective subscription, not a double delivery. -/
theorem subscribe_sequences_last_write_wins (ops : List RegOp) (b : Binding) :
    (b ∈ runOps ops ↔ lastWriteWins ops b = true) ∧
    (runOps ops).count b ≤ 1 := by
  constructor
  · unfold runOps lastWriteWins
    rw [mem_foldl_applyOp]
    simp
  · exact List.nodup_iff_count_le_one.mp (runOps_nodup ops) b

/-- With no handler installed, the guarded dispatch fold emits one
diagnostic per failing listener, runs through the whole round, and never
sets the re-raise flag. -/
theorem dispatch_fold_no_handler (fails : Nat → Bool) :
    ∀ (l : List Binding) (init : DispatchOutcome),
      l.foldl
          (fun out b =>
            if fails b.target then
              { out with diagnostics := out.diagnostics + 1 }
            else out)
          init
        = ⟨init.diagnostics + l.countP (fun b => fails b.target),
           init.raisedToSetter⟩ := by
  intro l
  induction l with
  | nil =>
    intro init
    simp
  | cons b l ih =>
    intro init
    rw [List.foldl_cons, List.countP_cons]
    by_cases hf : fails b.target
    · simp only [hf, if_pos, ih]
      simp [Nat.add_assoc, Nat.add_comm 1]
    · simp [hf, ih]

/-- Claim C8: when listeners raise during dispatch and no exception handler
is installed, the attribute write still succeeds (the stored value is the
written one), one diagnostic is emitted per failing listener while dispatch
continues through the round, and no exception is propagated to the
attribute setter. -/
theorem listener_exception_without_handler_is_contained
    (r : Registry) (fails : Nat → Bool) (o : Nat) (attr : String) (new : Int) :
    setAttrGuarded r fails [] o attr new
      = (new, ⟨(lookup r o attr).countP (fun b => fails b.target), false⟩) := by
  unfold setAttrGuarded guardedDispatch
  rw [dispatch_fold_no_handler fails (lookup r o attr) ⟨0, false⟩]
  simp

/-- Claim C9: on a Python-3 runtime the compat predicates
`is_old_style_instance`, `is_InstanceType` and `is_ClassType` return
`False` for every input; the Python-3 branch defines
`is_old_style_instance` twice and never binds `is_old_style_class`, so
referencing `_py2to3.is_old_style_class` on Python 3 fails
(`NameError`/`AttributeError`). -/
theorem py3_predicates_false_and_old_style_class_missing :
    (∀ (α : Type) (obj : α),
        is_old_style_instance obj = false ∧
        is_InstanceType obj = false ∧
        is_ClassType obj = false) ∧
    py3BoundNames.count "is_old_style_instance" = 2 ∧
    "is_old_style_class" ∉ py3BoundNames ∧
    py3Lookup "is_old_style_class" = none := by
  refine ⟨fun α obj => ⟨rfl, rfl, rfl⟩, by decide, by decide, by decide⟩

/-- When every remaining manager enters successfully, the enter loop
appends their values in order and raises nothing. -/
theorem enterLoop_all_ok (l : List CtxMgr) :
    ∀ (ret : List Int) (stack : List Nat),
      (∀ m ∈ l, m.entersOk = true) →
      enterLoop l ret stack = .ok (ret ++ l.map CtxMgr.enterValue) := by
  induction l with
  | nil =>
    intro ret stack _
    simp [enterLoop]
  | cons m l ih =>
    intro ret stack h
    have hm : m.entersOk = true := h m (List.mem_cons_self m l)
    cases he : m.enterResult with
    | error e =>
      rw [CtxMgr.entersOk, he] at hm
      exact absurd hm (by simp)
    | ok v =>
      rw [enterLoop, he]
      show enterLoop l (ret ++ [v]) (m.id :: stack)
          = Except.ok (ret ++ List.map CtxMgr.enterValue (m :: l))
      rw [ih (ret ++ [v]) (m.id :: stack)
          (fun q hq => h q (List.mem_cons_of_mem m hq))]
      simp [CtxMgr.enterValue, he]

/-- When the managers before `m` all enter successfully and entering `m`
raises, the enter loop closes exactly the already-entered managers, most
recently entered first, and propagates the exception. -/
theorem enterLoop_prefix_then_error (pre : List CtxMgr) :
    ∀ (m : CtxMgr) (post : List CtxMgr) (ret : List Int) (stack : List Nat)
      (e : String),
      (∀ p ∈ pre, p.entersOk = true) →
      m.enterResult = .error e →
      enterLoop (pre ++ m :: post) ret stack
        = .error (e, (pre.map CtxMgr.id).reverse ++ stack) := by
  induction pre with
  | nil =>
    intro m post ret stack e _ hm
    simp [enterLoop, hm]
  | cons p pre ih =>
    intro m post ret stack e hpre hm
    have hp : p.entersOk = true := hpre p (List.mem_cons_self p pre)
    cases he : p.enterResult with
    | error e' =>
      rw [CtxMgr.entersOk, he] at hp
      exact absurd hp (by simp)
    | ok v =>
      rw [List.cons_append, enterLoop, he]
      show enterLoop (pre ++ m :: post) (ret ++ [v]) (p.id :: stack)
          = Except.error (e, (List.map CtxMgr.id (p :: pre)).reverse ++ stack)
      rw [ih m post (ret ++ [v]) (p.id :: stack) e
          (fun q hq => hpre q (List.mem_cons_of_mem p hq)) hm]
      simp

/-- Claim C10: `nested_context_mgrs.__enter__` (Python-3 branch) returns
the tuple of the values produced by entering each supplied context manager,
in the argument order they were given; if entering any manager raises,
every manager already entered is closed (its exit runs, in reverse entry
order) before the exception propagates to the caller. -/
theorem nested_context_mgrs_enter_spec (args : List CtxMgr) :
    ((∀ m ∈ args, m.entersOk = true) →
        nested_context_mgrs_enter args = .ok (args.map CtxMgr.enterValue)) ∧
    (∀ (pre : List CtxMgr) (m : CtxMgr) (post : List CtxMgr) (e : String),
        args = pre ++ m :: post →
        (∀ p ∈ pre, p.entersOk = true) →
        m.enterResult = .error e →
        nested_context_mgrs_enter args
          = .error (e, (pre.map CtxMgr.id).reverse)) := by
  constructor
  · intro h
    unfold nested_context_mgrs_enter
    rw [enterLoop_all_ok args [] [] h]
    simp
  · intro pre m post e heq hpre hm
    unfold nested_context_mgrs_enter
    subst heq
    rw [enterLoop_prefix_then_error pre m post [] [] e hpre hm]
    simp

/-- Concrete witness for C10: entering two succeeding managers yields their
values in argument order; with a failing second manager out of three, only
the first manager is closed and the exception propagates. -/
theorem nested_context_mgrs_enter_spec_witness :
    nested_context_mgrs_enter [⟨0, .ok 10⟩, ⟨1, .ok 20⟩] = .ok [10, 20] ∧
    nested_context_mgrs_enter [⟨0, .ok 10⟩, ⟨1, .error "boom"⟩, ⟨2, .ok 30⟩]
      = .error ("boom", [0]) := by
  constructor
  · have h := (nested_context_mgrs_enter_spec
        [⟨0, .ok 10⟩, ⟨1, .ok 20⟩]).1 (by decide)
    simpa [CtxMgr.enterValue] using h
  · have h := (nested_context_mgrs_enter_spec
        [⟨0, .ok 10⟩, ⟨1, .error "boom"⟩, ⟨2, .ok 30⟩]).2
        [⟨0, .ok 10⟩] ⟨1, .error "boom"⟩ [⟨2, .ok 30⟩] "boom" rfl
        (by decide) rfl
    simpa using h

